import Mathlib

/-!
Shallow embedding of the core of the `the_hard_way` rendering engine
(frame synchronization, swapchain lifecycle, GPU buffer ownership) and
proofs about it.  Vulkan handles (semaphores, fences, buffers, image
views, ...) are opaque to the program, so they are modelled as natural
numbers; calls into the Vulkan device are modelled as an explicit event
log (`Event`), and the nondeterministic outcome of
`acquire_next_image_khr` is an explicit input (`AcquireResult`).
-/

namespace TheHardWay

/-- Memory-type selector passed to the erupt allocator
(`MemoryTypeFinder::dynamic()` is host-visible and coherent,
`MemoryTypeFinder::gpu_only()` is device-local). -/
inductive MemTypeFinder where
  | dynamic
  | gpuOnly
deriving DecidableEq

/-- The `vk::SubmitInfo` structure as the engine builds it: semaphores to
wait on (with their pipeline-stage masks), semaphores to signal, and the
command buffers submitted.  A builder field left untouched stays empty. -/
structure SubmitInfo where
  wait_semaphores : List Nat
  wait_dst_stage_mask : List Nat
  signal_semaphores : List Nat
  command_buffers : List Nat
deriving DecidableEq

/-- One call into the Vulkan device / allocator, recorded in program order. -/
inductive Event where
  | createBuffer (handle size : Nat)
  | allocateMem (memType : MemTypeFinder) (owner : Nat)
  | allocateCommandBuffers (n : Nat)
  | beginCommandBuffer
  | cmdCopyBuffer (src dst size : Nat)
  | endCommandBuffer
  | queueSubmit (info : SubmitInfo) (fence : Option Nat)
  | queueWaitIdle
  | freeCommandBuffers
  | deviceWaitIdle
  | freeAllocation (owner : Nat)
  | destroySemaphore (s : Nat)
  | destroyFence (f : Nat)
  | acquireNextImage (semaphore : Nat)
  | waitForFences (f : Nat)
  | resetFences (f : Nat)
  | createImageView (v : Nat)
  | createFramebuffer (f : Nat)
  | destroyImageView (v : Nat)
  | destroyPipeline (p : Nat)
  | destroyPipelineLayout (p : Nat)
  | destroyFramebuffer (f : Nat)
  | destroySwapchain (s : Nat)
  | destroyRenderPass (r : Nat)
deriving DecidableEq

/-! ## Frame synchronizer (`src/frame_sync.rs`) -/

/-- State of `struct FrameSync`: the ring of synchronization triples, the
ring size `frames_in_flight`, the round-robin cursor `frame_idx`, and the
`freed` flag checked by the `Drop` impl. -/
structure FrameSync where
  in_flight_fences : List Nat
  image_available_semaphores : List Nat
  render_finished_semaphores : List Nat
  frames_in_flight : Nat
  frame_idx : Nat
  freed : Bool
deriving DecidableEq

/-- `FrameSync::new`: creates `frames_in_flight` semaphores twice over and
as many (signaled) fences, sets `freed := false` and `frame_idx := 0`.
The device hands back opaque fresh handles; the model numbers them. -/
def FrameSync.new (frames_in_flight : Nat) : FrameSync :=
  { image_available_semaphores := List.range frames_in_flight
    render_finished_semaphores := (List.range frames_in_flight).map (frames_in_flight + ·)
    in_flight_fences := (List.range frames_in_flight).map (2 * frames_in_flight + ·)
    frames_in_flight := frames_in_flight
    freed := false
    frame_idx := 0 }

/-- `FrameSync::next_frame`: `self.frame_idx = (self.frame_idx + 1) % self.frames_in_flight`. -/
def FrameSync.next_frame (s : FrameSync) : FrameSync :=
  { s with frame_idx := (s.frame_idx + 1) % s.frames_in_flight }

/-- `FrameSync::free`: destroys every image-available semaphore chained
with every render-finished semaphore, then every fence.  It writes no
field of the struct — in particular it never sets `freed`. -/
def FrameSync.free (s : FrameSync) : FrameSync × List Event :=
  (s,
    (s.image_available_semaphores ++ s.render_finished_semaphores).map Event.destroySemaphore
      ++ s.in_flight_fences.map Event.destroyFence)

/-- The `Drop for FrameSync` impl: panics exactly when `freed` is unset. -/
def FrameSync.drop_panics (s : FrameSync) : Bool :=
  !s.freed

/-! ## Allocated buffer (`src/allocated_buffer.rs`) -/

/-- The subset of `vk::BufferUsageFlags` this program uses.  The Rust
code combines them with `|=`. -/
structure BufferUsageFlags where
  transfer_src : Bool := false
  transfer_dst : Bool := false
  vertex_buffer : Bool := false
  index_buffer : Bool := false
  uniform_buffer : Bool := false
deriving DecidableEq

/-- `vk::BufferCreateInfo` as the program uses it: a byte size and usage
flags (sharing mode is always exclusive and carries no information). -/
structure BufferCreateInfo where
  size : Nat := 0
  usage : BufferUsageFlags := {}
deriving DecidableEq

/-- State of `struct AllocatedBuffer<T>`: the buffer handle, the optional
allocation (`Some` until freed) carrying the memory contents, the stored
create info, the `dynamic` (host-mappable) tag and the `freed` flag. -/
structure AllocatedBuffer (T : Type) where
  buffer : Nat
  allocation : Option (List T)
  create_info : BufferCreateInfo
  dynamic : Bool
  freed : Bool
deriving DecidableEq

/-- Result of a fallible buffer operation: a Rust `Ok`, a Rust `Err`
(`anyhow::bail!` / `ensure!`), or an abort (`expect` / `panic!` in the
source). -/
inductive BufferOutcome (T : Type) where
  | ok (b : AllocatedBuffer T)
  | err (msg : String)
  | panicked (msg : String)
deriving DecidableEq

/-- `AllocatedBuffer::<T>::new`: checks `count > 0` (`ensure!`) before any
device call, computes `size = size_of::<T>() * count`, sets it on the
create info, ors `TRANSFER_SRC` into the usage, creates the buffer and
allocates host-visible (`dynamic`) memory for it.  `elem_size` stands for
`size_of::<T>()` and `handle` for the fresh buffer handle the device
returns; freshly allocated memory is uninitialized, modelled as default
elements. -/
def AllocatedBuffer.new (T : Type) [Inhabited T] (count : Nat)
    (create_info : BufferCreateInfo) (elem_size handle : Nat) :
    Except String (AllocatedBuffer T) × List Event :=
  if 0 < count then
    let size := elem_size * count
    let ci : BufferCreateInfo :=
      { size := size, usage := { create_info.usage with transfer_src := true } }
    (Except.ok
      { buffer := handle
        allocation := some (List.replicate count default)
        create_info := ci
        dynamic := true
        freed := false },
     [Event.createBuffer handle size, Event.allocateMem MemTypeFinder.dynamic handle])
  else
    (Except.error "Must allocate at least one object", [])

/-- `AllocatedBuffer::map`: bails out with the immutable-buffer error when
the buffer is not dynamic, panics on use-after-free, and otherwise maps
the whole allocation, imports all of `data` at its start, and unmaps. -/
def AllocatedBuffer.map {T : Type} (b : AllocatedBuffer T) (data : List T) :
    BufferOutcome T :=
  if b.dynamic = false then
    BufferOutcome.err "Cannot write to gpu-only memory"
  else
    match b.allocation with
    | none => BufferOutcome.panicked "Use-after-free"
    | some c => BufferOutcome.ok { b with allocation := some (data ++ c.drop data.length) }

/-- `AllocatedBuffer::free`: waits for the device to go idle, then frees
the allocation (`take().expect(..)` aborts on a double free) and sets
`freed := true`. -/
def AllocatedBuffer.free {T : Type} (b : AllocatedBuffer T) :
    BufferOutcome T × List Event :=
  match b.allocation with
  | none => (BufferOutcome.panicked "Already deallocated", [Event.deviceWaitIdle])
  | some _ =>
      (BufferOutcome.ok { b with allocation := none, freed := true },
       [Event.deviceWaitIdle, Event.freeAllocation b.buffer])

/-- `AllocatedBuffer::gpu_only`: ors `TRANSFER_DST` into the stored create
info, creates a second buffer from it (same byte size), allocates
device-local memory for it, records a one-shot command buffer copying the
whole original buffer into it, submits without a fence, blocks on
`queue_wait_idle`, frees the command buffer, frees the original
allocation via `free` (which also waits for device idle), and returns a
new non-dynamic handle.  `handle` is the fresh buffer handle and `cb` the
fresh command-buffer handle the device returns. -/
def AllocatedBuffer.gpu_only {T : Type} (b : AllocatedBuffer T) (handle cb : Nat) :
    BufferOutcome T × List Event :=
  let ci : BufferCreateInfo :=
    { b.create_info with usage := { b.create_info.usage with transfer_dst := true } }
  let copyEvents : List Event :=
    [Event.createBuffer handle ci.size,
     Event.allocateMem MemTypeFinder.gpuOnly handle,
     Event.allocateCommandBuffers 1,
     Event.beginCommandBuffer,
     Event.cmdCopyBuffer b.buffer handle ci.size,
     Event.endCommandBuffer,
     Event.queueSubmit ⟨[], [], [], [cb]⟩ none,
     Event.queueWaitIdle,
     Event.freeCommandBuffers]
  match ({ b with create_info := ci } : AllocatedBuffer T).free with
  | (BufferOutcome.ok _, freeEvents) =>
      (BufferOutcome.ok
        { buffer := handle
          allocation := b.allocation
          create_info := ci
          dynamic := false
          freed := false },
       copyEvents ++ freeEvents)
  | (BufferOutcome.err m, freeEvents) => (BufferOutcome.err m, copyEvents ++ freeEvents)
  | (BufferOutcome.panicked m, freeEvents) =>
      (BufferOutcome.panicked m, copyEvents ++ freeEvents)

/-! ## Swapchain (`src/swapchain.rs`) -/

/-- The synchronization view of one frame slot as `Swapchain::next_image`
and `Engine::next_frame` consume it (`crate::frame_sync::Frame`): the
slot's image-available semaphore and its completion fence.  The struct's
declaring revision of `frame_sync.rs` is not among these sources; its two
fields are fixed by its uses in `swapchain.rs` and `engine/frame.rs` and
match the spec's FrameSlot triple. -/
structure Frame where
  image_available : Nat
  in_flight_fence : Nat
deriving DecidableEq

/-- State of `struct SwapChainImage`: framebuffer, image view, the
"last-writer" fence `in_flight` (`none` models the null fence), and the
`freed` flag. -/
structure SwapChainImage where
  framebuffer : Nat
  image_view : Nat
  in_flight : Option Nat
  freed : Bool
deriving DecidableEq

/-- `SwapChainImage::new`: creates an image view and a framebuffer for
one swapchain image and starts with `in_flight = vk::Fence::null()`.
`image_view` and `framebuffer` are the fresh handles the device returns. -/
def SwapChainImage.new (image_view framebuffer : Nat) : SwapChainImage × List Event :=
  ({ framebuffer := framebuffer, image_view := image_view, in_flight := none, freed := false },
   [Event.createImageView image_view, Event.createFramebuffer framebuffer])

/-- `SwapChainImage::free`: destroys the framebuffer, then the image
view, and sets `freed`. -/
def SwapChainImage.free (img : SwapChainImage) : SwapChainImage × List Event :=
  ({ img with freed := true },
   [Event.destroyFramebuffer img.framebuffer, Event.destroyImageView img.image_view])

/-- State of `struct Pipeline` (`src/pipeline.rs`). -/
structure Pipeline where
  pipeline : Nat
  pipeline_layout : Nat
  freed : Bool
deriving DecidableEq

/-- `Pipeline::free`: destroys the pipeline, then its layout, and sets
`freed`. -/
def Pipeline.free (p : Pipeline) : Pipeline × List Event :=
  ({ p with freed := true },
   [Event.destroyPipeline p.pipeline, Event.destroyPipelineLayout p.pipeline_layout])

/-- State of `struct Swapchain`: the swapchain handle, shared render
pass, extent, the `MaterialId → Pipeline` map (listed in iteration
order), the depth image with its allocation and view, the presentable
images, and the `freed` flag. -/
structure Swapchain where
  swapchain : Nat
  render_pass : Nat
  extent : Nat × Nat
  pipelines : List (Nat × Pipeline)
  depth_image : Nat
  depth_image_mem : Option Nat
  depth_image_view : Nat
  images : List SwapChainImage
  freed : Bool
deriving DecidableEq

/-- What the platform reports for `acquire_next_image_khr`: the surface
is out of date, or an image index is available. -/
inductive AcquireResult where
  | outOfDate
  | success (image_index : Nat)
deriving DecidableEq

/-- `Swapchain::next_image`: acquires the next image index using the
frame's image-available semaphore; on `ERROR_OUT_OF_DATE_KHR` it returns
`Ok(None)`.  On success it waits on the image's last-writer fence when
that fence is non-null, then stores the current frame's completion fence
as the image's last writer, and returns the index with the image.  Other
acquisition failures abort via `unwrap()` and an index past the image
vector aborts via the indexing panic; both are modelled as
`Except.error`. -/
def Swapchain.next_image (s : Swapchain) (acq : AcquireResult) (frame : Frame) :
    Except String (Option (Nat × Swapchain)) × List Event :=
  match acq with
  | AcquireResult.outOfDate =>
      (Except.ok none, [Event.acquireNextImage frame.image_available])
  | AcquireResult.success i =>
      if h : i < s.images.length then
        let image := s.images.get ⟨i, h⟩
        let waitEvents : List Event :=
          match image.in_flight with
          | some f => [Event.waitForFences f]
          | none => []
        (Except.ok (some (i,
          { s with images :=
              s.images.set i { image with in_flight := some frame.in_flight_fence } })),
         Event.acquireNextImage frame.image_available :: waitEvents)
      else
        (Except.error "image index out of range",
         [Event.acquireNextImage frame.image_available])

/-- `Swapchain::free`: waits for the device to go idle, destroys the
depth image view, frees the depth allocation (`take().unwrap()` aborts
when it is already gone — modelled as `none`), frees every pipeline,
frees every presentable image, destroys the swapchain object, then the
render pass, and sets `freed := true`. -/
def Swapchain.free (s : Swapchain) : Option (Swapchain × List Event) :=
  match s.depth_image_mem with
  | none => none
  | some _ =>
      some
        ({ s with depth_image_mem := none
                  pipelines := s.pipelines.map (fun p => (p.1, (p.2.free).1))
                  images := []
                  freed := true },
         [Event.deviceWaitIdle, Event.destroyImageView s.depth_image_view,
          Event.freeAllocation s.depth_image]
           ++ s.pipelines.flatMap (fun p => (p.2.free).2)
           ++ s.images.flatMap (fun img => (img.free).2)
           ++ [Event.destroySwapchain s.swapchain, Event.destroyRenderPass s.render_pass])

/-! ## Engine (`src/engine/`) -/

/-- The engine state restricted to what the swapchain-recovery path
touches: the optional current swapchain generation.  The remaining
`Engine` fields (registries, device handles, descriptor state) are
untouched by these operations. -/
structure Engine where
  swapchain : Option Swapchain
deriving DecidableEq

/-- `Engine::invalidate_swapchain` (`engine/internals.rs`): frees the
current swapchain if there is one and marks the slot absent (`None`). -/
def Engine.invalidate_swapchain (e : Engine) : Option (Engine × List Event) :=
  match e.swapchain with
  | none => some ({ swapchain := none }, [])
  | some sc =>
      match sc.free with
      | none => none
      | some (_, evs) => some ({ swapchain := none }, evs)

/-- Modelled from the spec: the acquisition step of the windowed
`Engine::next_frame` orchestrator.  The revision of `engine/frame.rs` in
these sources is an OpenXR variant that never consumes the `Option`
returned by `Swapchain::next_image`; the windowed orchestrator the spec
describes — "acquire; on `Stale`, drop the frame, tear down and mark the
swapchain absent, return success" — is missing from the sources, so its
branch structure is modelled here from those words, reusing the
source-derived `Swapchain::next_image` and the teardown of
`Engine::invalidate_swapchain`. -/
def Engine.next_frame_acquire (e : Engine) (acq : AcquireResult) (frame : Frame) :
    Except String (Option Nat) × Engine × List Event :=
  match e.swapchain with
  | none => (Except.error "no swapchain built", e, [])
  | some sc =>
      match sc.next_image acq frame with
      | (Except.ok none, evs) =>
          match sc.free with
          | none => (Except.error "panicked in free", e, evs)
          | some (_, evs') => (Except.ok none, { swapchain := none }, evs ++ evs')
      | (Except.ok (some (i, sc')), evs) =>
          (Except.ok (some i), { swapchain := some sc' }, evs)
      | (Except.error m, evs) => (Except.error m, e, evs)

/-- The submission step of `Engine::next_frame` (`engine/frame.rs`): it
builds a `SubmitInfo` listing only the command buffer — the builder's
wait-semaphore, wait-stage and signal-semaphore fields are left empty —
then resets the frame's completion fence and immediately submits with
that fence. -/
def Engine.submit_frame (command_buffer : Nat) (frame : Frame) : List Event :=
  [Event.resetFences frame.in_flight_fence,
   Event.queueSubmit ⟨[], [], [], [command_buffer]⟩ (some frame.in_flight_fence)]

/-! ## Objects (`src/engine/mod.rs`) -/

/-- `struct Object`: the index buffer (u16 indices, modelled as `Nat`),
the vertex buffer, the index count and the material reference.  The
`transform` field (an external nalgebra matrix) plays no role in the
buffer-ownership claims and is left out of the embedding. -/
structure Object (V : Type) where
  indices : AllocatedBuffer Nat
  vertices : AllocatedBuffer V
  n_indices : Nat
  material : Nat

/-- Outcome of `Engine::add_object`. -/
inductive ObjOutcome (V : Type) where
  | ok (o : Object V)
  | err (msg : String)
  | panicked (msg : String)

/-- `Engine::add_object`: creates a vertex buffer (`VERTEX_BUFFER`
usage), writes the vertices into it, promotes it to device-local only
when `dynamic` is false; creates an index buffer (`INDEX_BUFFER` usage),
writes the indices, and always promotes it; then builds the `Object`.
Every fallible step propagates its error with `?`.  `vsize`/`isize` are
the element sizes, `h1`-`h4` the fresh buffer handles and `vcb`/`icb`
the fresh command-buffer handles. -/
def Engine.add_object (V : Type) [Inhabited V] (vertices : List V) (indices : List Nat)
    (material : Nat) (dynamic : Bool) (vsize isize h1 h2 h3 h4 vcb icb : Nat) :
    ObjOutcome V × List Event :=
  let n_indices := indices.length
  match AllocatedBuffer.new V vertices.length { usage := { vertex_buffer := true } } vsize h1 with
  | (Except.error m, evs1) => (ObjOutcome.err m, evs1)
  | (Except.ok vb, evs1) =>
    match vb.map vertices with
    | BufferOutcome.err m => (ObjOutcome.err m, evs1)
    | BufferOutcome.panicked m => (ObjOutcome.panicked m, evs1)
    | BufferOutcome.ok vb1 =>
      match (if dynamic then (BufferOutcome.ok vb1, ([] : List Event))
             else vb1.gpu_only h2 vcb) with
      | (BufferOutcome.err m, evs2) => (ObjOutcome.err m, evs1 ++ evs2)
      | (BufferOutcome.panicked m, evs2) => (ObjOutcome.panicked m, evs1 ++ evs2)
      | (BufferOutcome.ok vb2, evs2) =>
        match AllocatedBuffer.new Nat indices.length { usage := { index_buffer := true } }
            isize h3 with
        | (Except.error m, evs3) => (ObjOutcome.err m, evs1 ++ evs2 ++ evs3)
        | (Except.ok ib, evs3) =>
          match ib.map indices with
          | BufferOutcome.err m => (ObjOutcome.err m, evs1 ++ evs2 ++ evs3)
          | BufferOutcome.panicked m => (ObjOutcome.panicked m, evs1 ++ evs2 ++ evs3)
          | BufferOutcome.ok ib1 =>
            match ib1.gpu_only h4 icb with
            | (BufferOutcome.err m, evs4) =>
                (ObjOutcome.err m, evs1 ++ evs2 ++ evs3 ++ evs4)
            | (BufferOutcome.panicked m, evs4) =>
                (ObjOutcome.panicked m, evs1 ++ evs2 ++ evs3 ++ evs4)
            | (BufferOutcome.ok ib2, evs4) =>
                (ObjOutcome.ok
                  { material := material, indices := ib2, vertices := vb2,
                    n_indices := n_indices },
                 evs1 ++ evs2 ++ evs3 ++ evs4)

/-- `Engine::reupload_vertices`, at the granularity of one stored object
(the registry ignores absent ids): writes the new vertices through
`AllocatedBuffer::map` on the object's vertex buffer. -/
def Engine.reupload_vertices (V : Type) (o : Object V) (vertices : List V) :
    BufferOutcome V :=
  o.vertices.map vertices

/-- The object produced by the demonstration `add_object` call of the
C10 witness: one vertex (`4`), one index (`0`), created with
`dynamic = false`. -/
def demoObject : Object Nat :=
  { material := 0
    n_indices := 1
    indices :=
      { buffer := 4, allocation := some [0],
        create_info :=
          ⟨2, { transfer_src := true, transfer_dst := true, index_buffer := true }⟩,
        dynamic := false, freed := false }
    vertices :=
      { buffer := 2, allocation := some [4],
        create_info :=
          ⟨4, { transfer_src := true, transfer_dst := true, vertex_buffer := true }⟩,
        dynamic := false, freed := false } }

/-- The device calls the demonstration `add_object` call performs. -/
def demoAddEvents : List Event :=
  [Event.createBuffer 1 4, Event.allocateMem MemTypeFinder.dynamic 1,
   Event.createBuffer 2 4, Event.allocateMem MemTypeFinder.gpuOnly 2,
   Event.allocateCommandBuffers 1, Event.beginCommandBuffer,
   Event.cmdCopyBuffer 1 2 4, Event.endCommandBuffer,
   Event.queueSubmit ⟨[], [], [], [5]⟩ none, Event.queueWaitIdle,
   Event.freeCommandBuffers, Event.deviceWaitIdle, Event.freeAllocation 1,
   Event.createBuffer 3 2, Event.allocateMem MemTypeFinder.dynamic 3,
   Event.createBuffer 4 2, Event.allocateMem MemTypeFinder.gpuOnly 4,
   Event.allocateCommandBuffers 1, Event.beginCommandBuffer,
   Event.cmdCopyBuffer 3 4 2, Event.endCommandBuffer,
   Event.queueSubmit ⟨[], [], [], [6]⟩ none, Event.queueWaitIdle,
   Event.freeCommandBuffers, Event.deviceWaitIdle, Event.freeAllocation 3]

/-! ## Theorems -/

/-- Advancing the cursor never changes the ring size. -/
theorem FrameSync.frames_in_flight_iterate (N k : Nat) :
    (FrameSync.next_frame^[k] (FrameSync.new N)).frames_in_flight = N := by
  induction k with
  | zero => rfl
  | succ k ih =>
      rw [Function.iterate_succ_apply']
      simpa [FrameSync.next_frame] using ih

/-- C1: with `frames_in_flight = N > 0`, every `next_frame` call moves the
round-robin cursor to `(previous index + 1) % N`, and starting from a fresh
`FrameSync` the cursor after `k` calls is `k % N`, so the slot sequence is
`0, 1, ..., N-1, 0, 1, ...` — it never skips an index and never repeats
one out of order. -/
theorem frameSync_round_robin (N : Nat) (hN : 0 < N) :
    (∀ s : FrameSync, s.frames_in_flight = N →
      s.next_frame.frame_idx = (s.frame_idx + 1) % N) ∧
    (∀ k : Nat, (FrameSync.next_frame^[k] (FrameSync.new N)).frame_idx = k % N) := by
  refine ⟨fun s hs => by simp [FrameSync.next_frame, hs], fun k => ?_⟩
  induction k with
  | zero => simp [FrameSync.new]
  | succ k ih =>
      rw [Function.iterate_succ_apply']
      simp [FrameSync.next_frame, ih, FrameSync.frames_in_flight_iterate, Nat.mod_add_mod]

/-- Witness for C1: with two frames in flight, after five advances the
cursor sits at slot `1 = 5 % 2`. -/
theorem frameSync_round_robin_witness :
    0 < 2 ∧ (FrameSync.next_frame^[5] (FrameSync.new 2)).frame_idx = 1 :=
  ⟨by decide, (frameSync_round_robin 2 (by decide)).2 5⟩

/-- C5 (code bug): the drop-time check aborts whenever `freed` is unset,
and `free` never sets `freed`; evaluating the embedded code, a fresh
`FrameSync` panics on drop (as the claim says), but it still panics on
drop after `free` has been called (contradicting both the claim and the
panic message in the source, which blames a skipped `free()`). -/
theorem frameSync_drop_after_free_still_panics :
    (FrameSync.new 2).drop_panics = true ∧
      ((FrameSync.new 2).free).1.drop_panics = true :=
  ⟨rfl, rfl⟩

/-- Any buffer `gpu_only` returns successfully is no longer dynamic. -/
theorem AllocatedBuffer.gpu_only_ok_not_dynamic {T : Type} (b : AllocatedBuffer T)
    (handle cb : Nat) (b' : AllocatedBuffer T) (evs : List Event)
    (h : b.gpu_only handle cb = (BufferOutcome.ok b', evs)) : b'.dynamic = false := by
  unfold AllocatedBuffer.gpu_only at h
  dsimp only at h
  split at h
  · rw [Prod.mk.injEq] at h
    obtain ⟨h1, -⟩ := h
    injection h1 with h2
    subst h2
    rfl
  · rw [Prod.mk.injEq] at h
    obtain ⟨h1, -⟩ := h
    exact absurd h1 (by simp)
  · rw [Prod.mk.injEq] at h
    obtain ⟨h1, -⟩ := h
    exact absurd h1 (by simp)

/-- C6: promoting a dynamic buffer to device-local creates a second buffer
of identical byte size, allocates device-local memory for it, records and
submits a one-shot copy command buffer from the original buffer to the new
one, blocks until the queue is idle, frees the original buffer's
allocation (after a device-idle wait), and returns a new handle that is
not in dynamic mode. -/
theorem allocatedBuffer_gpu_only_promotes {T : Type} (b : AllocatedBuffer T)
    (c : List T) (handle cb : Nat) (hdyn : b.dynamic = true)
    (h : b.allocation = some c) :
    b.gpu_only handle cb =
      (BufferOutcome.ok
        { buffer := handle
          allocation := some c
          create_info :=
            { b.create_info with
                usage := { b.create_info.usage with transfer_dst := true } }
          dynamic := false
          freed := false },
       [Event.createBuffer handle b.create_info.size,
        Event.allocateMem MemTypeFinder.gpuOnly handle,
        Event.allocateCommandBuffers 1,
        Event.beginCommandBuffer,
        Event.cmdCopyBuffer b.buffer handle b.create_info.size,
        Event.endCommandBuffer,
        Event.queueSubmit ⟨[], [], [], [cb]⟩ none,
        Event.queueWaitIdle,
        Event.freeCommandBuffers,
        Event.deviceWaitIdle,
        Event.freeAllocation b.buffer]) := by
  simp [AllocatedBuffer.gpu_only, AllocatedBuffer.free, h]

/-- Witness for C6 at a concrete one-element buffer. -/
theorem allocatedBuffer_gpu_only_promotes_witness :
    AllocatedBuffer.gpu_only
        { buffer := 7, allocation := some [3], dynamic := true, freed := false,
          create_info := { size := 4, usage := { transfer_src := true } } } 8 9 =
      (BufferOutcome.ok
        { buffer := 8, allocation := some [3], dynamic := false, freed := false,
          create_info :=
            { size := 4, usage := { transfer_src := true, transfer_dst := true } } },
       [Event.createBuffer 8 4,
        Event.allocateMem MemTypeFinder.gpuOnly 8,
        Event.allocateCommandBuffers 1,
        Event.beginCommandBuffer,
        Event.cmdCopyBuffer 7 8 4,
        Event.endCommandBuffer,
        Event.queueSubmit ⟨[], [], [], [9]⟩ none,
        Event.queueWaitIdle,
        Event.freeCommandBuffers,
        Event.deviceWaitIdle,
        Event.freeAllocation 7]) :=
  allocatedBuffer_gpu_only_promotes (T := Nat) _ [3] 8 9 rfl rfl

/-- C7: writing to a buffer that is not in dynamic mode — in particular
to any buffer returned by `gpu_only` — fails with the immutable-buffer
error (no `ok` state is produced, so nothing is copied); writing to a
live dynamic buffer copies the entire input slice onto the head of the
allocation, with no partial-write outcome. -/
theorem allocatedBuffer_map_immutable_or_whole {T : Type}
    (b : AllocatedBuffer T) (data : List T) :
    (b.dynamic = false → b.map data = BufferOutcome.err "Cannot write to gpu-only memory") ∧
    (∀ handle cb b' evs, b.gpu_only handle cb = (BufferOutcome.ok b', evs) →
      b'.map data = BufferOutcome.err "Cannot write to gpu-only memory") ∧
    (∀ c, b.dynamic = true → b.allocation = some c →
      b.map data =
        BufferOutcome.ok { b with allocation := some (data ++ c.drop data.length) }) := by
  refine ⟨fun h => by simp [AllocatedBuffer.map, h], ?_, ?_⟩
  · intro handle cb b' evs h
    have hd := AllocatedBuffer.gpu_only_ok_not_dynamic b handle cb b' evs h
    simp [AllocatedBuffer.map, hd]
  · intro c hdyn halloc
    simp [AllocatedBuffer.map, hdyn, halloc]

/-- Witness for C7: a concrete dynamic one-element buffer accepts a whole
write, and the same buffer promoted to device-local rejects it. -/
theorem allocatedBuffer_map_immutable_or_whole_witness :
    AllocatedBuffer.map
        { buffer := 7, allocation := some [0], dynamic := true, freed := false,
          create_info := { size := 4, usage := { transfer_src := true } } } [5] =
      BufferOutcome.ok
        { buffer := 7, allocation := some [5], dynamic := true, freed := false,
          create_info := { size := 4, usage := { transfer_src := true } } } :=
  (allocatedBuffer_map_immutable_or_whole (T := Nat)
      { buffer := 7, allocation := some [0], dynamic := true, freed := false,
        create_info := { size := 4, usage := { transfer_src := true } } } [5]).2.2
    [0] rfl rfl

/-- C8: `AllocatedBuffer::new` with `count = 0` fails with the
invalid-argument error, creating no device buffer and performing no
allocation (the `count > 0` check precedes every device call); with
`count > 0` creation proceeds: one buffer of `elem_size * count` bytes is
created and one host-visible allocation is made, and the result is a
fresh dynamic buffer. -/
theorem allocatedBuffer_new_count_check (T : Type) [Inhabited T]
    (count elem_size handle : Nat) (ci : BufferCreateInfo) :
    (count = 0 →
      AllocatedBuffer.new T count ci elem_size handle =
        (Except.error "Must allocate at least one object", [])) ∧
    (0 < count →
      ∃ b : AllocatedBuffer T,
        AllocatedBuffer.new T count ci elem_size handle =
          (Except.ok b,
           [Event.createBuffer handle (elem_size * count),
            Event.allocateMem MemTypeFinder.dynamic handle]) ∧
        b.dynamic = true ∧ b.freed = false ∧
        b.create_info.size = elem_size * count) := by
  constructor
  · intro h; subst h; simp [AllocatedBuffer.new]
  · intro h
    refine ⟨{ buffer := handle
              allocation := some (List.replicate count default)
              create_info := ⟨elem_size * count, { ci.usage with transfer_src := true }⟩
              dynamic := true
              freed := false }, ?_, rfl, rfl, rfl⟩
    simp [AllocatedBuffer.new, h]

/-- Witness for C8: a zero-count request fails without any device event,
and a one-element request succeeds. -/
theorem allocatedBuffer_new_count_check_witness :
    AllocatedBuffer.new Nat 0 {} 4 7 =
        (Except.error "Must allocate at least one object", []) ∧
      (0 : Nat) = 0 :=
  ⟨(allocatedBuffer_new_count_check Nat 0 4 7 {}).1 rfl, rfl⟩

/-- C2: when acquisition reports the surface out of date,
`Swapchain::next_image` returns `Ok(None)` — the `Stale` outcome, not an
error — and the per-frame entry point then tears the current swapchain
down, marks it absent, and returns success to its caller; the condition
is never propagated as an error.  (`Engine::next_frame_acquire` carries
the spec-modelled branch structure of the missing windowed orchestrator.) -/
theorem swapchain_stale_recovered (sc : Swapchain) (frame : Frame) (m : Nat)
    (hmem : sc.depth_image_mem = some m) :
    (sc.next_image AcquireResult.outOfDate frame =
      (Except.ok none, [Event.acquireNextImage frame.image_available])) ∧
    ∃ evs, Engine.next_frame_acquire ⟨some sc⟩ AcquireResult.outOfDate frame =
      (Except.ok none, ⟨none⟩, Event.acquireNextImage frame.image_available :: evs) := by
  refine ⟨rfl, ?_⟩
  refine ⟨(sc.free.map Prod.snd).getD [], ?_⟩
  simp [Engine.next_frame_acquire, Swapchain.next_image, Swapchain.free, hmem]

/-- Witness for C2 on a concrete one-image swapchain: stale acquisition
yields `Ok(None)` and the orchestrator ends with no swapchain and a
successful result. -/
theorem swapchain_stale_recovered_witness :
    Swapchain.next_image
        { swapchain := 50, render_pass := 51, extent := (640, 480),
          pipelines := [], depth_image := 52, depth_image_mem := some 53,
          depth_image_view := 54,
          images := [{ framebuffer := 70, image_view := 71, in_flight := none, freed := false }],
          freed := false }
        AcquireResult.outOfDate { image_available := 10, in_flight_fence := 12 } =
      (Except.ok none, [Event.acquireNextImage 10]) ∧
    ∃ evs,
      Engine.next_frame_acquire
          ⟨some { swapchain := 50, render_pass := 51, extent := (640, 480),
                  pipelines := [], depth_image := 52, depth_image_mem := some 53,
                  depth_image_view := 54,
                  images := [{ framebuffer := 70, image_view := 71, in_flight := none,
                               freed := false }],
                  freed := false }⟩
          AcquireResult.outOfDate { image_available := 10, in_flight_fence := 12 } =
        (Except.ok none, ⟨none⟩, Event.acquireNextImage 10 :: evs) :=
  swapchain_stale_recovered _ _ 53 rfl

/-- C3: on an acquisition that succeeds with image index `i`, if image
`i`'s last-writer fence (`in_flight`) is non-null the call waits on that
fence before returning; afterwards image `i`'s last-writer fence is the
current frame's completion fence; and every image of a newly built
swapchain generation starts with a null last-writer fence. -/
theorem swapchain_next_image_hazard (s : Swapchain) (frame : Frame) (i f : Nat)
    (hi : i < s.images.length) :
    ((s.images.get ⟨i, hi⟩).in_flight = some f →
      Event.waitForFences f ∈ (s.next_image (AcquireResult.success i) frame).2) ∧
    (∃ s', (s.next_image (AcquireResult.success i) frame).1 = Except.ok (some (i, s')) ∧
      s'.images.get? i =
        some { s.images.get ⟨i, hi⟩ with in_flight := some frame.in_flight_fence }) ∧
    (∀ iv fb, ((SwapChainImage.new iv fb).1).in_flight = none) := by
  refine ⟨?_, ?_, fun iv fb => rfl⟩
  · intro hf
    simp only [List.get_eq_getElem] at hf
    simp [Swapchain.next_image, hi, hf]
  · refine ⟨{ s with images := s.images.set i { s.images.get ⟨i, hi⟩ with in_flight := some frame.in_flight_fence } }, ?_, ?_⟩
    · simp [Swapchain.next_image, hi]
    · simp [List.getElem?_set_eq_of_lt _ hi]

/-- Witness for C3 on a concrete one-image swapchain whose image carries
last-writer fence 9: acquisition of index 0 waits on fence 9, hands the
image to fence 12, and a fresh image starts with a null fence. -/
theorem swapchain_next_image_hazard_witness :
    (Event.waitForFences 9 ∈
      (Swapchain.next_image
          { swapchain := 50, render_pass := 51, extent := (640, 480),
            pipelines := [], depth_image := 52, depth_image_mem := some 53,
            depth_image_view := 54,
            images := [{ framebuffer := 70, image_view := 71, in_flight := some 9,
                         freed := false }],
            freed := false }
          (AcquireResult.success 0)
          { image_available := 10, in_flight_fence := 12 }).2) ∧
    ((SwapChainImage.new 71 70).1).in_flight = none :=
  ⟨(swapchain_next_image_hazard _ _ 0 9 (by decide)).1 rfl,
   (swapchain_next_image_hazard
      { swapchain := 50, render_pass := 51, extent := (640, 480),
        pipelines := [], depth_image := 52, depth_image_mem := some 53,
        depth_image_view := 54,
        images := [{ framebuffer := 70, image_view := 71, in_flight := some 9,
                     freed := false }],
        freed := false }
      { image_available := 10, in_flight_fence := 12 } 0 9 (by decide)).2.2 71 70⟩

/-- C4 counterexample: at the submission recorded in `engine/frame.rs`
with command buffer 3 and a frame slot whose image-available semaphore is
10 and whose completion fence is 12, the submit info lists only the
command buffer — its wait-semaphore and signal-semaphore lists are empty,
so the submission neither waits on the image-available semaphore (at any
stage) nor signals a render-finished semaphore. -/
theorem engine_submit_no_semaphores_counterexample :
    Engine.submit_frame 3 { image_available := 10, in_flight_fence := 12 } =
      [Event.resetFences 12,
       Event.queueSubmit ⟨[], [], [], [3]⟩ (some 12)] ∧
    ((Engine.submit_frame 3 { image_available := 10, in_flight_fence := 12 }).all
      (fun e =>
        match e with
        | Event.queueSubmit info _ =>
            !(info.wait_semaphores.contains 10) && !(info.signal_semaphores.contains 11)
        | _ => true)) = true := by
  exact ⟨rfl, rfl⟩

/-- C4 amended: in every rendered frame the slot's completion fence is
reset immediately before submission and is the fence passed to
`queue_submit`; the submit info lists only the command buffer, with no
semaphore waits and no semaphore signals (the OpenXR revision in the
sources leaves GPU-GPU ordering to the runtime). -/
theorem engine_submit_fence_only (command_buffer : Nat) (frame : Frame) :
    Engine.submit_frame command_buffer frame =
      [Event.resetFences frame.in_flight_fence,
       Event.queueSubmit ⟨[], [], [], [command_buffer]⟩ (some frame.in_flight_fence)] :=
  rfl

/-- C9 counterexample: on a concrete one-image, one-pipeline swapchain,
teardown destroys the swapchain object (position 7) before the render
pass (position 8) — contradicting the claimed "... then the render pass,
and finally the swapchain object itself" order. -/
theorem swapchain_free_order_counterexample :
    (Swapchain.free
        { swapchain := 50, render_pass := 51, extent := (640, 480),
          pipelines := [(0, { pipeline := 60, pipeline_layout := 61, freed := false })],
          depth_image := 52, depth_image_mem := some 53, depth_image_view := 54,
          images := [{ framebuffer := 70, image_view := 71, in_flight := none,
                       freed := false }],
          freed := false }).map Prod.snd =
      some [Event.deviceWaitIdle, Event.destroyImageView 54, Event.freeAllocation 52,
            Event.destroyPipeline 60, Event.destroyPipelineLayout 61,
            Event.destroyFramebuffer 70, Event.destroyImageView 71,
            Event.destroySwapchain 50, Event.destroyRenderPass 51] ∧
    [Event.deviceWaitIdle, Event.destroyImageView 54, Event.freeAllocation 52,
     Event.destroyPipeline 60, Event.destroyPipelineLayout 61,
     Event.destroyFramebuffer 70, Event.destroyImageView 71,
     Event.destroySwapchain 50, Event.destroyRenderPass 51].indexOf
        (Event.destroySwapchain 50) <
      [Event.deviceWaitIdle, Event.destroyImageView 54, Event.freeAllocation 52,
       Event.destroyPipeline 60, Event.destroyPipelineLayout 61,
       Event.destroyFramebuffer 70, Event.destroyImageView 71,
       Event.destroySwapchain 50, Event.destroyRenderPass 51].indexOf
        (Event.destroyRenderPass 51) := by
  exact ⟨rfl, by decide⟩

/-- C9 amended: `Swapchain::free` first waits for the device to go idle,
then destroys the depth resources (view, then allocation), then every
pipeline, then every presentable image, then the swapchain object, and
finally the render pass. -/
theorem swapchain_free_order (s : Swapchain) (m : Nat)
    (hmem : s.depth_image_mem = some m) :
    s.free = some
      ({ s with depth_image_mem := none
                pipelines := s.pipelines.map (fun p => (p.1, (p.2.free).1))
                images := []
                freed := true },
       [Event.deviceWaitIdle, Event.destroyImageView s.depth_image_view,
        Event.freeAllocation s.depth_image]
         ++ s.pipelines.flatMap
              (fun p => [Event.destroyPipeline p.2.pipeline,
                         Event.destroyPipelineLayout p.2.pipeline_layout])
         ++ s.images.flatMap
              (fun img => [Event.destroyFramebuffer img.framebuffer,
                           Event.destroyImageView img.image_view])
         ++ [Event.destroySwapchain s.swapchain, Event.destroyRenderPass s.render_pass]) := by
  simp [Swapchain.free, hmem, Pipeline.free, SwapChainImage.free]

/-- Witness for C9's amended order on a concrete swapchain. -/
theorem swapchain_free_order_witness :
    Swapchain.free
        { swapchain := 50, render_pass := 51, extent := (640, 480),
          pipelines := [(0, { pipeline := 60, pipeline_layout := 61, freed := false })],
          depth_image := 52, depth_image_mem := some 53, depth_image_view := 54,
          images := [{ framebuffer := 70, image_view := 71, in_flight := none,
                       freed := false }],
          freed := false } =
      some
        ({ swapchain := 50, render_pass := 51, extent := (640, 480),
           pipelines := [(0, { pipeline := 60, pipeline_layout := 61, freed := true })],
           depth_image := 52, depth_image_mem := none, depth_image_view := 54,
           images := [], freed := true },
         [Event.deviceWaitIdle, Event.destroyImageView 54, Event.freeAllocation 52,
          Event.destroyPipeline 60, Event.destroyPipelineLayout 61,
          Event.destroyFramebuffer 70, Event.destroyImageView 71,
          Event.destroySwapchain 50, Event.destroyRenderPass 51]) :=
  swapchain_free_order _ 53 rfl

/-- A buffer `AllocatedBuffer::new` returns successfully is dynamic and
carries a live allocation. -/
theorem AllocatedBuffer.new_ok_state {T : Type} [Inhabited T]
    {count es handle : Nat} {ci : BufferCreateInfo} {b : AllocatedBuffer T}
    {evs : List Event}
    (h : AllocatedBuffer.new T count ci es handle = (Except.ok b, evs)) :
    b.dynamic = true ∧ ∃ c, b.allocation = some c := by
  unfold AllocatedBuffer.new at h
  split at h
  · rw [Prod.mk.injEq] at h
    obtain ⟨h1, -⟩ := h
    injection h1 with h1
    subst h1
    exact ⟨rfl, _, rfl⟩
  · rw [Prod.mk.injEq] at h
    obtain ⟨h1, -⟩ := h
    exact absurd h1 (by simp)

/-- A successful `map` leaves the dynamic tag and allocation liveness
unchanged. -/
theorem AllocatedBuffer.map_ok_state {T : Type} {b : AllocatedBuffer T}
    {data : List T} {b' : AllocatedBuffer T}
    (h : b.map data = BufferOutcome.ok b') :
    b'.dynamic = b.dynamic ∧ ∃ c, b'.allocation = some c := by
  unfold AllocatedBuffer.map at h
  split at h
  · exact absurd h (by simp)
  · split at h
    next heq => exact absurd h (by simp)
    next c heq =>
      injection h with h
      subst h
      exact ⟨rfl, _, rfl⟩

/-- `free` only returns successfully from a live allocation. -/
theorem AllocatedBuffer.free_ok_src {T : Type} {b bf : AllocatedBuffer T}
    {evs : List Event}
    (h : b.free = (BufferOutcome.ok bf, evs)) : ∃ c, b.allocation = some c := by
  unfold AllocatedBuffer.free at h
  split at h
  next heq => exact absurd (congrArg Prod.fst h) (by simp)
  next c heq => exact ⟨c, heq⟩

/-- A buffer `gpu_only` returns successfully carries a live allocation. -/
theorem AllocatedBuffer.gpu_only_ok_allocation {T : Type} {b b' : AllocatedBuffer T}
    {handle cb : Nat} {evs : List Event}
    (h : b.gpu_only handle cb = (BufferOutcome.ok b', evs)) :
    ∃ c, b'.allocation = some c := by
  unfold AllocatedBuffer.gpu_only at h
  dsimp only at h
  split at h
  next bf freeEvents heq =>
    rw [Prod.mk.injEq] at h
    obtain ⟨h1, -⟩ := h
    injection h1 with h1
    subst h1
    obtain ⟨c, hc⟩ := AllocatedBuffer.free_ok_src heq
    exact ⟨c, hc⟩
  next m freeEvents heq =>
    rw [Prod.mk.injEq] at h
    obtain ⟨h1, -⟩ := h
    exact absurd h1 (by simp)
  next m freeEvents heq =>
    rw [Prod.mk.injEq] at h
    obtain ⟨h1, -⟩ := h
    exact absurd h1 (by simp)

/-- C10: every object `add_object` creates successfully has its index
buffer promoted to device-local (non-dynamic) regardless of the `dynamic`
flag, while its vertex buffer is host-mappable exactly when
`dynamic = true`; consequently `reupload_vertices` succeeds on the object
exactly when it was created with `dynamic = true`, and fails with the
immutable-buffer error otherwise. -/
theorem engine_add_object_buffer_modes (V : Type) [Inhabited V]
    (vertices : List V) (indices : List Nat) (material : Nat) (dynamic : Bool)
    (vsize isize h1 h2 h3 h4 vcb icb : Nat) (o : Object V) (evs : List Event)
    (h : Engine.add_object V vertices indices material dynamic vsize isize h1 h2 h3 h4 vcb icb
          = (ObjOutcome.ok o, evs)) :
    o.indices.dynamic = false ∧
    o.vertices.dynamic = dynamic ∧
    (∀ newVerts : List V,
      if dynamic then ∃ b', Engine.reupload_vertices V o newVerts = BufferOutcome.ok b'
      else Engine.reupload_vertices V o newVerts =
        BufferOutcome.err "Cannot write to gpu-only memory") := by
  unfold Engine.add_object at h
  dsimp only at h
  split at h
  next m evs1 heq1 => exact absurd (congrArg Prod.fst h) (by simp)
  next vb evs1 heq1 =>
    split at h
    next m heq2 => exact absurd (congrArg Prod.fst h) (by simp)
    next m heq2 => exact absurd (congrArg Prod.fst h) (by simp)
    next vb1 heq2 =>
      split at h
      next m evs2 heq3 => exact absurd (congrArg Prod.fst h) (by simp)
      next m evs2 heq3 => exact absurd (congrArg Prod.fst h) (by simp)
      next vb2 evs2 heq3 =>
        split at h
        next m evs3 heq4 => exact absurd (congrArg Prod.fst h) (by simp)
        next ib evs3 heq4 =>
          split at h
          next m heq5 => exact absurd (congrArg Prod.fst h) (by simp)
          next m heq5 => exact absurd (congrArg Prod.fst h) (by simp)
          next ib1 heq5 =>
            split at h
            next m evs4 heq6 => exact absurd (congrArg Prod.fst h) (by simp)
            next m evs4 heq6 => exact absurd (congrArg Prod.fst h) (by simp)
            next ib2 evs4 heq6 =>
              rw [Prod.mk.injEq] at h
              obtain ⟨ho, -⟩ := h
              injection ho with ho
              subst ho
              obtain ⟨hvbdyn, -⟩ := AllocatedBuffer.new_ok_state heq1
              obtain ⟨hvb1dyn, c, hvb1alloc⟩ := AllocatedBuffer.map_ok_state heq2
              refine ⟨AllocatedBuffer.gpu_only_ok_not_dynamic _ _ _ _ _ heq6, ?_⟩
              cases dynamic with
              | true =>
                  rw [if_pos rfl] at heq3
                  rw [Prod.mk.injEq] at heq3
                  obtain ⟨h31, -⟩ := heq3
                  injection h31 with h31
                  subst h31
                  refine ⟨by rw [hvb1dyn, hvbdyn], fun newVerts => ?_⟩
                  rw [if_pos rfl]
                  refine ⟨{ vb1 with allocation := some (newVerts ++ c.drop newVerts.length) }, ?_⟩
                  simp [Engine.reupload_vertices, AllocatedBuffer.map, hvb1dyn, hvbdyn,
                        hvb1alloc]
              | false =>
                  rw [if_neg (by simp)] at heq3
                  have hvb2dyn := AllocatedBuffer.gpu_only_ok_not_dynamic _ _ _ _ _ heq3
                  refine ⟨hvb2dyn, fun newVerts => ?_⟩
                  rw [if_neg (by simp)]
                  simp [Engine.reupload_vertices, AllocatedBuffer.map, hvb2dyn]

/-- Witness for C10: a one-vertex, one-index object created with
`dynamic = false` has a non-dynamic index buffer, a non-dynamic vertex
buffer, and rejects every vertex reupload. -/
theorem engine_add_object_buffer_modes_witness :
    demoObject.indices.dynamic = false ∧
    demoObject.vertices.dynamic = false ∧
    (∀ newVerts : List Nat,
      if false then
        ∃ b', Engine.reupload_vertices Nat demoObject newVerts = BufferOutcome.ok b'
      else Engine.reupload_vertices Nat demoObject newVerts =
        BufferOutcome.err "Cannot write to gpu-only memory") :=
  engine_add_object_buffer_modes Nat [4] [0] 0 false 4 2 1 2 3 4 5 6
    demoObject demoAddEvents rfl

end TheHardWay
